import Mathlib

/-!
Verification of the openclaw local-browser supervisor and CDP screenshot
client against its natural-language specification.

The development is a shallow embedding of the TypeScript sources:

* pure helpers (`normalizeHexColor`, `setDeep`, `findChromeExecutableMac`)
  become Lean functions over lists and strings (JS strings are modelled as
  `List Char` where character-level behaviour matters);
* the stateful CDP protocol client (`src/browser/cdp.ts`) becomes explicit
  state passing over a `Conn` record holding the id counter and the
  id-to-PendingCommand table, with inbound frames and the close event as an
  explicit event type;
* the filesystem and the child process are modelled as oracles (existence
  predicates, read results, write-failure flags, exit/reachability traces),
  so that every I/O outcome the claims quantify over is a concrete input.
-/

namespace Openclaw

/-! ## JS string primitives (strings as lists of characters) -/

/-- ASCII uppercasing of one character, as `String.prototype.toUpperCase`
acts on the ASCII range (the only characters reaching it here). -/
def jsToUpper (c : Char) : Char :=
  if 'a' ≤ c ∧ c ≤ 'z' then Char.ofNat (c.toNat - 32) else c

/-- The character set `String.prototype.trim` removes: ECMAScript
WhiteSpace ∪ LineTerminator, i.e. TAB, LF, VT, FF, CR, SP, NBSP, BOM, the
Unicode Zs category (OGHAM SPACE MARK, EN QUAD through HAIR SPACE, NNBSP,
MMSP, IDEOGRAPHIC SPACE), LS and PS. -/
def jsWhitespace (c : Char) : Bool :=
  decide (c.toNat = 9 ∨ c.toNat = 10 ∨ c.toNat = 11 ∨ c.toNat = 12 ∨
    c.toNat = 13 ∨ c.toNat = 32 ∨ c.toNat = 160 ∨ c.toNat = 5760 ∨
    (8192 ≤ c.toNat ∧ c.toNat ≤ 8202) ∨ c.toNat = 8232 ∨ c.toNat = 8233 ∨
    c.toNat = 8239 ∨ c.toNat = 8287 ∨ c.toNat = 12288 ∨ c.toNat = 65279)

/-- `String.prototype.trim`: drop leading and trailing JS whitespace. -/
def jsTrim (s : List Char) : List Char :=
  ((s.dropWhile jsWhitespace).reverse.dropWhile jsWhitespace).reverse

/-- One character of the regex class `[0-9a-fA-F]`. -/
def isHexDigitChar (c : Char) : Bool :=
  decide (('0' ≤ c ∧ c ≤ '9') ∨ ('a' ≤ c ∧ c ≤ 'f') ∨ ('A' ≤ c ∧ c ≤ 'F'))

/-! ## Constants (src/browser/constants.js)

The constants module itself is not among the provided sources, but the
repository's own test suite (src/browser/config.test.ts) pins the default
color: `expect(resolved.color).toBe("#FF4500")`. -/

/-- `DEFAULT_CLAWD_BROWSER_COLOR`, value fixed by config.test.ts. -/
def DEFAULT_CLAWD_BROWSER_COLOR : String := "#FF4500"

/-- Modelled from the spec: `DEFAULT_CLAWD_BROWSER_PROFILE_NAME` (the profile
display name constant) is not under the provided sources; no claim depends on
its value, only on it being some fixed string. -/
def DEFAULT_CLAWD_BROWSER_PROFILE_NAME : String := "clawd"

/-! ## normalizeHexColor (src/browser/config.ts lines 25-31) -/

/-- The regex test `/^#[0-9a-fA-F]{6}$/.test s`. -/
def matchesHexPattern : List Char → Bool
  | '#' :: rest => rest.length == 6 && rest.all isHexDigitChar
  | _ => false

/-- `normalizeHexColor(raw)` from src/browser/config.ts:

```ts
const value = (raw ?? "").trim();
if (!value) return DEFAULT_CLAWD_BROWSER_COLOR;
const normalized = value.startsWith("#") ? value : `#` + value;
if (!/^#[0-9a-fA-F]{6}$/.test(normalized)) return DEFAULT_CLAWD_BROWSER_COLOR;
return normalized.toUpperCase();
``` -/
def normalizeHexColor (raw : Option (List Char)) : List Char :=
  let value := jsTrim (raw.getD [])
  if value = [] then DEFAULT_CLAWD_BROWSER_COLOR.toList
  else
    let normalized := if value.head? = some '#' then value else '#' :: value
    if matchesHexPattern normalized then normalized.map jsToUpper
    else DEFAULT_CLAWD_BROWSER_COLOR.toList

/-- The hex digits of a color string: everything after an optional
leading `#`. -/
def hexCore (t : List Char) : List Char :=
  if t.head? = some '#' then t.tail else t

/-- The claim's validity notion: a 6-hex-digit color,
with or without a leading `#`. -/
def validSixHexB (t : List Char) : Bool :=
  (hexCore t).length == 6 && (hexCore t).all isHexDigitChar

/-! ## setDeep (src/browser/chrome.ts-like module, part_000 lines 112-122)

JSON values; JS objects are association lists in insertion order. -/

inductive JsonV where
  | null
  | bool (b : Bool)
  | num (n : Int)
  | str (s : String)
  | arr (elems : List JsonV)
  | obj (fields : List (String × JsonV))

/-- JS property read `node[key]` on an object (first matching key). -/
def getKey : List (String × JsonV) → String → Option JsonV
  | [], _ => none
  | (k', w) :: rest, k => if k' = k then some w else getKey rest k

/-- JS property write `node[key] = v` on an object: replace the binding if
the key is present, otherwise append it. -/
def setKey : List (String × JsonV) → String → JsonV → List (String × JsonV)
  | [], k, v => [(k, v)]
  | (k', w) :: rest, k, v =>
    if k' = k then (k', v) :: rest else (k', w) :: setKey rest k v

/-- The object traversed into at `key`: the existing fields when the current
value is a plain object, otherwise a fresh empty object.  This is the
source's `typeof next !== "object" || next === null || Array.isArray(next)` branch: missing keys, `null`, arrays and primitives are all
replaced by a fresh empty object. -/
def childFields (fields : List (String × JsonV)) (k : String) :
    List (String × JsonV) :=
  match getKey fields k with
  | some (JsonV.obj f) => f
  | _ => []

/-- `setDeep(obj, keys, value)` from part_000 lines 112-122, functionally:
walk `keys.slice(0, -1)` replacing non-object values by empty objects, then assign
the final key.  For `keys = []` the source assigns `obj[keys[-1] ?? ""]`,
i.e. the empty-string key. -/
def setDeep (fields : List (String × JsonV)) :
    List String → JsonV → List (String × JsonV)
  | [], v => setKey fields "" v
  | [k], v => setKey fields k v
  | k :: k2 :: rest, v =>
    setKey fields k (JsonV.obj (setDeep (childFields fields k) (k2 :: rest) v))

/-- Path lookup, for stating what `setDeep` wrote. -/
def getDeep (fields : List (String × JsonV)) : List String → Option JsonV
  | [] => some (JsonV.obj fields)
  | [k] => getKey fields k
  | k :: k2 :: rest =>
    match getKey fields k with
    | some (JsonV.obj f) => getDeep f (k2 :: rest)
    | _ => none

/-! ## Executable Locator (part_000 lines 38-80)

The spec's kind names map to the source's union type as
canary ↦ "canary", open-source build ↦ "chromium", stable ↦ "chrome".
The filesystem is an oracle `String → Bool` standing for the
exception-swallowing `exists` wrapper around `fs.existsSync`. -/

inductive BrowserKind where
  | canary
  | chromium
  | chrome
deriving DecidableEq

structure BrowserExecutable where
  kind : BrowserKind
  path : String
deriving DecidableEq

def canarySystem : BrowserExecutable :=
  ⟨.canary, "/Applications/Google Chrome Canary.app/Contents/MacOS/Google Chrome Canary"⟩

def canaryUser (home : String) : BrowserExecutable :=
  ⟨.canary, home ++ "/Applications/Google Chrome Canary.app/Contents/MacOS/Google Chrome Canary"⟩

def chromiumSystem : BrowserExecutable :=
  ⟨.chromium, "/Applications/Chromium.app/Contents/MacOS/Chromium"⟩

def chromiumUser (home : String) : BrowserExecutable :=
  ⟨.chromium, home ++ "/Applications/Chromium.app/Contents/MacOS/Chromium"⟩

def chromeSystem : BrowserExecutable :=
  ⟨.chrome, "/Applications/Google Chrome.app/Contents/MacOS/Google Chrome"⟩

def chromeUser (home : String) : BrowserExecutable :=
  ⟨.chrome, home ++ "/Applications/Google Chrome.app/Contents/MacOS/Google Chrome"⟩

/-- The fixed candidate list of `findChromeExecutableMac`, in source order. -/
def chromeCandidatesMac (home : String) : List BrowserExecutable :=
  [canarySystem, canaryUser home, chromiumSystem, chromiumUser home,
   chromeSystem, chromeUser home]

/-- `findChromeExecutableMac()`: first candidate whose path exists,
`none` when no candidate exists. -/
def findChromeExecutableMac (home : String) (fsExists : String → Bool) :
    Option BrowserExecutable :=
  (chromeCandidatesMac home).find? (fun c => fsExists c.path)


/-! ## Protocol Client connection state (src/browser/cdp.ts lines 20-66)

One `Conn` holds the per-connection mutable state of `captureScreenshotPng`:
the `nextId` counter and the `pending` correlation table.  Callbacks are not
representable directly, so the table keeps the pending ids (the map's keys,
in insertion order) and the observable effect of invoking a callback is
recorded in `resolved` / `rejected`.  `sentIds` is the history of ids handed
out by `send`, needed to state the monotonicity claim. -/

structure Conn where
  nextId : Nat
  pending : List Nat
  sentIds : List Nat
  resolved : List Nat
  rejected : List (Nat × String)
deriving DecidableEq

/-- State right after `new WebSocket(...)`: `nextId = 1`, empty table. -/
def initConn : Conn := ⟨1, [], [], [], []⟩

/-- An inbound websocket frame, as the `message` handler classifies it:
`invalid` is unparseable JSON or a frame whose `id` is not a number (both
ignored); `response id errMsg` is a frame with numeric id, where `errMsg`
is the value of `error.message` if the `error` field carries one. -/
inductive Frame where
  | invalid
  | response (id : Nat) (errMsg : Option String)

/-- `send(method, params)` lines 23-30: take `nextId++`, register the
pending command under that id (synchronously, before any reply can be
seen), return the id. -/
def sendCmd (c : Conn) : Conn × Nat :=
  (⟨c.nextId + 1, c.pending ++ [c.nextId], c.sentIds ++ [c.nextId],
    c.resolved, c.rejected⟩, c.nextId)

/-- The `message` handler, lines 47-62: drop invalid frames; drop frames
whose id matches no pending command; otherwise delete the entry and reject
it when `error.message` is truthy (a non-empty string), else resolve it. -/
def handleMessage (c : Conn) : Frame → Conn
  | .invalid => c
  | .response id errMsg =>
    if id ∈ c.pending then
      match errMsg with
      | some m =>
        if m = "" then
          ⟨c.nextId, c.pending.erase id, c.sentIds, c.resolved ++ [id],
            c.rejected⟩
        else
          ⟨c.nextId, c.pending.erase id, c.sentIds, c.resolved,
            c.rejected ++ [(id, m)]⟩
      | none =>
        ⟨c.nextId, c.pending.erase id, c.sentIds, c.resolved ++ [id],
          c.rejected⟩
    else c

/-- The error message `closeWithError` is called with from the `close`
handler (line 65). -/
def closedMsg : String := "CDP socket closed"

/-- `closeWithError(err)` lines 32-40: reject every pending command with
`err` (map iteration order = insertion order) and clear the table. -/
def closeWithError (c : Conn) (msg : String) : Conn :=
  ⟨c.nextId, [], c.sentIds, c.resolved,
    c.rejected ++ c.pending.map (fun i => (i, msg))⟩

/-- The events a connection's state reacts to. -/
inductive Ev where
  | send
  | msg (f : Frame)
  | close

def stepEv (c : Conn) : Ev → Conn
  | .send => (sendCmd c).1
  | .msg f => handleMessage c f
  | .close => closeWithError c closedMsg

/-- The connection state reached from a fresh connection by a sequence of
sends, inbound frames and close events. -/
def runEvents (evs : List Ev) : Conn := evs.foldl stepEv initConn

/-- Structural invariant of every reachable connection state: the assigned
ids are exactly `1, 2, ..., nextId - 1` in order, and the pending table
holds distinct ids all below `nextId`. -/
def ConnInv (c : Conn) : Prop :=
  c.sentIds = List.range' 1 c.sentIds.length ∧
  c.nextId = c.sentIds.length + 1 ∧
  (∀ i ∈ c.pending, i < c.nextId) ∧
  c.pending.Nodup

/-! ## The capture sequence (src/browser/cdp.ts lines 14-108)

`captureScreenshotPng` issues commands strictly sequentially: each `send`
is awaited before the next, so while one command is in flight the pending
table is exactly `[id]` and the only state-changing events are that id's
response or the socket's close event (frames with other ids match nothing
and are dropped; see `handleMessage`).  The remote endpoint is therefore
modelled as one reply per command: a result, an error frame with a truthy
(non-empty) `error.message`, or a connection close while awaiting. -/

/-- `{cssContentSize?: {width?, height?}, ...}` — the TS type the layout
metrics response is used at. -/
structure SizeD where
  width : Option Rat
  height : Option Rat

structure LayoutMetrics where
  cssContentSize : Option SizeD
  contentSize : Option SizeD

/-- `{data?: string}` — the capture response, `data` the base64 payload. -/
structure CaptureRes where
  data : Option String

/-- A clip rectangle as sent in the capture command's params. -/
structure Clip where
  x : Rat
  y : Rat
  width : Rat
  height : Rat
  scale : Rat
deriving DecidableEq

/-- Params of the `Page.captureScreenshot` command (line 88-92): fixed
format/surface/beyond-viewport flags plus the optional clip. -/
structure CaptureParams where
  format : String
  fromSurface : Bool
  captureBeyondViewport : Bool
  clip : Option Clip
deriving DecidableEq

/-- The endpoint's reply to one awaited command. -/
inductive ReplyK (α : Type) where
  | ok (val : α)
  | err (msg : String)
  | close

/-- One remote endpoint, answering the (at most three) commands of a
capture invocation, plus whether the websocket open succeeds. -/
structure CdpEndpoint where
  connectOk : Bool
  enableReply : ReplyK Unit
  metricsReply : ReplyK LayoutMetrics
  captureReply : ReplyK CaptureRes

/-- The errors a capture invocation can propagate.  `connectionClosed`
carries the message "CDP socket closed"; `captureFailed` the message
"Screenshot failed: missing data". -/
inductive CapErr where
  | connectionFailed
  | protocolError (msg : String)
  | connectionClosed
  | captureFailed
deriving DecidableEq

/-- Running capture-sequence state: the connection plus the trace of sent
methods and of pending-table sizes observed after every state change. -/
structure StepSt where
  conn : Conn
  methods : List String
  sizes : List Nat

/-- `await send(method, params)`: register the command, then either its
response arrives (resolving or rejecting it) or the socket closes (running
`closeWithError`, which also closes the socket).  Returns the state, a flag
"the socket was closed by this step", and the command's outcome. -/
def doCmd {α : Type} (st : StepSt) (method : String) (reply : ReplyK α) :
    StepSt × Bool × Except CapErr α :=
  let send := sendCmd st.conn
  let afterSend : StepSt :=
    ⟨send.1, st.methods ++ [method], st.sizes ++ [send.1.pending.length]⟩
  match reply with
  | .ok a =>
    let c2 := handleMessage send.1 (.response send.2 none)
    (⟨c2, afterSend.methods, afterSend.sizes ++ [c2.pending.length]⟩,
      false, .ok a)
  | .err m =>
    let c2 := handleMessage send.1 (.response send.2 (some m))
    (⟨c2, afterSend.methods, afterSend.sizes ++ [c2.pending.length]⟩,
      false, .error (.protocolError m))
  | .close =>
    let c2 := closeWithError send.1 closedMsg
    (⟨c2, afterSend.methods, afterSend.sizes ++ [c2.pending.length]⟩,
      true, .error .connectionClosed)

/-- Lines 76-86: pick the content size (CSS-pixel size preferred, alternate
size as fallback), default each missing dimension to 0, and build the
full-content clip only when both dimensions are positive. -/
def computeClip (m : LayoutMetrics) : Option Clip :=
  let size := m.cssContentSize <|> m.contentSize
  let width := (size.bind SizeD.width).getD 0
  let height := (size.bind SizeD.height).getD 0
  if 0 < width ∧ 0 < height then some ⟨0, 0, width, height, 1⟩ else none

/-- Everything observable about one capture invocation. -/
structure CaptureRun where
  conn : Conn
  sentMethods : List String
  captureParams : Option CaptureParams
  pendingSizes : List Nat
  wsClosed : Bool
  outcome : Except CapErr String

/-- `captureScreenshotPng` (lines 14-108) against an endpoint: connect,
`Page.enable`, optionally `Page.getLayoutMetrics` (full page only),
`Page.captureScreenshot`, then demand a truthy base64 `data` payload —
the source's `if (!base64)` check, so an absent *or empty-string* payload
runs `closeWithError` and throws `captureFailed`.  On success the
socket is closed and the payload returned.  A command rejected by an error
frame propagates without closing the socket; a close while awaiting has
already run `closeWithError`. -/
def captureScreenshotPng (fullPage : Bool) (ep : CdpEndpoint) : CaptureRun :=
  let st0 : StepSt := ⟨initConn, [], [0]⟩
  if ep.connectOk = false then
    ⟨st0.conn, st0.methods, none, st0.sizes, false, .error .connectionFailed⟩
  else
    match doCmd st0 "Page.enable" ep.enableReply with
    | (st1, cl1, .error e1) =>
      ⟨st1.conn, st1.methods, none, st1.sizes, cl1, .error e1⟩
    | (st1, _, .ok _) =>
      match (if fullPage then
              match doCmd st1 "Page.getLayoutMetrics" ep.metricsReply with
              | (st2, cl2, .error e2) => (st2, cl2, Except.error e2)
              | (st2, cl2, .ok m) => (st2, cl2, Except.ok (computeClip m))
            else (st1, false, Except.ok none)) with
      | (st2, cl2, .error e2) =>
        ⟨st2.conn, st2.methods, none, st2.sizes, cl2, .error e2⟩
      | (st2, _, .ok clip) =>
        match doCmd st2 "Page.captureScreenshot" ep.captureReply with
        | (st3, cl3, .error e3) =>
          ⟨st3.conn, st3.methods, some ⟨"png", true, true, clip⟩, st3.sizes,
            cl3, .error e3⟩
        | (st3, _, .ok res) =>
          let fail : CaptureRun :=
            ⟨closeWithError st3.conn "Screenshot failed: missing data",
              st3.methods, some ⟨"png", true, true, clip⟩,
              st3.sizes ++
                [(closeWithError st3.conn "Screenshot failed: missing data").pending.length],
              true, .error .captureFailed⟩
          match res.data with
          | none => fail
          | some b64 =>
            if b64 = "" then fail
            else
              ⟨st3.conn, st3.methods, some ⟨"png", true, true, clip⟩,
                st3.sizes, true, .ok b64⟩

/-! ## Profile Brander (part_000 lines 95-185) -/

/-- What `decorateClawdProfile` sees of the filesystem: the results of
`safeReadJson` on the two preference files (`none` for a missing file, an
unreadable file, invalid JSON or a non-object value — `safeReadJson`
swallows every failure), and whether each of the three writes raises
(`fs.mkdirSync`/`fs.writeFileSync` inside `safeWriteJson` for each
preference file, `fs.writeFileSync` for the marker). -/
structure ProfileFs where
  localStateJson : Option (List (String × JsonV))
  preferencesJson : Option (List (String × JsonV))
  writeLocalStateThrows : Bool
  writePreferencesThrows : Bool
  writeMarkerThrows : Bool

/-- The observable writes of a decoration that ran to completion. -/
structure DecorateResult where
  localState : List (String × JsonV)
  preferences : List (String × JsonV)
  markerWritten : Bool

def decorateIsOk : Except Unit DecorateResult → Bool
  | .ok _ => true
  | .error _ => false

/-- `String.prototype.toUpperCase` on a whole string. -/
def jsUpperStr (s : String) : String := ⟨s.data.map jsToUpper⟩

/-- `decorateClawdProfile(userDataDir, opts)`, part_000 lines 128-185:
read-or-default each preference file, patch it with `setDeep`, write it
back with `safeWriteJson` (which has no try/catch: a raising write — here
`.error ()` — escapes to the caller), and finally write the marker inside
a try/catch of its own (its failure is swallowed).  The `userDataDir`
argument only selects file paths and is subsumed by the `ProfileFs`
oracle. -/
def decorateClawdProfile (fs : ProfileFs) (color : Option String) :
    Except Unit DecorateResult :=
  let desiredName := JsonV.str DEFAULT_CLAWD_BROWSER_PROFILE_NAME
  let desiredColor :=
    JsonV.str (jsUpperStr (color.getD DEFAULT_CLAWD_BROWSER_COLOR))
  let ls0 := fs.localStateJson.getD []
  let ls1 :=
    setDeep ls0 ["profile", "info_cache", "Default", "name"] desiredName
  let ls2 :=
    setDeep ls1 ["profile", "info_cache", "Default", "shortcut_name"]
      desiredName
  let ls3 :=
    setDeep ls2 ["profile", "info_cache", "Default", "user_name"] desiredName
  let ls4 :=
    setDeep ls3 ["profile", "info_cache", "Default", "profile_color"]
      desiredColor
  let ls5 :=
    setDeep ls4 ["profile", "info_cache", "Default", "user_color"]
      desiredColor
  if fs.writeLocalStateThrows then .error ()
  else
    let ps0 := fs.preferencesJson.getD []
    let ps1 := setDeep ps0 ["profile", "name"] desiredName
    let ps2 := setDeep ps1 ["profile", "profile_color"] desiredColor
    let ps3 := setDeep ps2 ["profile", "user_color"] desiredColor
    if fs.writePreferencesThrows then .error ()
    else .ok ⟨ls5, ps3, !fs.writeMarkerThrows⟩

/-! ## Shutdown (part_000 lines 322-346)

The child process is an oracle: `alreadyKilled` is `proc.killed` on entry
(true iff a signal was previously delivered via `proc.kill`),
`termDelivered` is whether `proc.kill("SIGTERM")` succeeds (on success it
sets `proc.killed` to true; `proc.exitCode` stays `null` until the process
actually exits), `exitAt i` / `reachAt i` are `proc.exitCode` and the
Reachability Prober's answer at the loop's i-th iteration, and `maxPolls`
is how many iterations the `timeoutMs` deadline allows. -/

/-- JS falsiness of `proc.exitCode`: `null` (still running) and `0` are
falsy; a non-zero exit code is truthy. -/
def jsFalsyExit : Option Int → Bool
  | none => true
  | some 0 => true
  | some _ => false

inductive StopOutcome where
  | alreadyKilled
  | graceful (polls : Nat)
  | forced
deriving DecidableEq

/-- The wait loop (lines 334-339) followed by the escalation (lines
341-345): each iteration first breaks to SIGKILL when
`!proc.exitCode && proc.killed`, then returns gracefully when the probe
answers unreachable; exhausting the deadline also escalates to SIGKILL. -/
def stopLoop (killed : Bool) (exitAt : Nat → Option Int)
    (reachAt : Nat → Bool) : Nat → Nat → StopOutcome
  | _, 0 => .forced
  | i, fuel + 1 =>
    if jsFalsyExit (exitAt i) && killed then .forced
    else if reachAt i = false then .graceful i
    else stopLoop killed exitAt reachAt (i + 1) fuel

/-- `stopClawdChrome(running, timeoutMs)`, part_000 lines 322-346. -/
def stopClawdChrome (alreadyKilled termDelivered : Bool)
    (exitAt : Nat → Option Int) (reachAt : Nat → Bool)
    (maxPolls : Nat) : StopOutcome :=
  if alreadyKilled then .alreadyKilled
  else stopLoop termDelivered exitAt reachAt 0 maxPolls

/-! ### setKey / getKey lemmas -/

theorem getKey_setKey_self (fields : List (String × JsonV)) (k : String)
    (v : JsonV) : getKey (setKey fields k v) k = some v := by
  induction fields with
  | nil => simp [setKey, getKey]
  | cons p rest ih =>
    obtain ⟨k', w⟩ := p
    by_cases h : k' = k <;> simp [setKey, getKey, h, ih]

theorem getKey_setKey_ne (fields : List (String × JsonV)) (k k' : String)
    (v : JsonV) (h : k' ≠ k) :
    getKey (setKey fields k v) k' = getKey fields k' := by
  induction fields with
  | nil => simp [setKey, getKey, Ne.symm h]
  | cons p rest ih =>
    obtain ⟨k'', w⟩ := p
    by_cases h2 : k'' = k
    · subst h2
      simp [setKey, getKey, Ne.symm h]
    · by_cases h3 : k'' = k' <;> simp [setKey, getKey, h, h2, h3, ih]

theorem getDeep_setDeep (keys : List String) :
    ∀ (fields : List (String × JsonV)) (v : JsonV), keys ≠ [] →
      getDeep (setDeep fields keys v) keys = some v := by
  induction keys with
  | nil => simp
  | cons k rest ih =>
    intro fields v _
    cases rest with
    | nil => simp [setDeep, getDeep, getKey_setKey_self]
    | cons k2 r2 =>
      simp only [setDeep, getDeep, getKey_setKey_self]
      exact ih _ _ (by simp)

/-! ## Correlation-table invariants -/

theorem connInv_init : ConnInv initConn := by
  simp [ConnInv, initConn]

/-- Shape of the `message` handler on a response frame: the id counter and
the assigned-id history are untouched, and the pending table loses exactly
the matching entry when there is one. -/
theorem handleMessage_fields (c : Conn) (id : Nat) (e : Option String) :
    (handleMessage c (.response id e)).nextId = c.nextId ∧
    (handleMessage c (.response id e)).sentIds = c.sentIds ∧
    (handleMessage c (.response id e)).pending =
      (if id ∈ c.pending then c.pending.erase id else c.pending) := by
  by_cases hp : id ∈ c.pending
  · cases e with
    | none => simp [handleMessage, hp]
    | some m =>
      rcases eq_or_ne m "" with hm | hm
      · subst hm; simp [handleMessage, hp]
      · simp [handleMessage, hp, hm]
  · cases e with
    | none => simp [handleMessage, hp]
    | some m => simp [handleMessage, hp]

theorem connInv_step (c : Conn) (e : Ev) (h : ConnInv c) :
    ConnInv (stepEv c e) := by
  obtain ⟨hs, hn, hb, hd⟩ := h
  cases e with
  | send =>
    have key : c.sentIds ++ [c.sentIds.length + 1] =
        List.range' 1 (c.sentIds.length + 1) := by
      rw [List.range'_concat, Nat.one_mul, Nat.add_comm 1 c.sentIds.length]
      exact congrArg (· ++ [c.sentIds.length + 1]) hs
    refine ⟨?_, ?_, ?_, ?_⟩
    · simp only [stepEv, sendCmd, List.length_append, List.length_singleton, hn]
      exact key
    · simp [stepEv, sendCmd, hn]
    · intro i hi
      simp only [stepEv, sendCmd, List.mem_append, List.mem_singleton] at hi ⊢
      rcases hi with hi | hi
      · exact Nat.lt_succ_of_lt (hb i hi)
      · subst hi; exact Nat.lt_succ_self _
    · simp only [stepEv, sendCmd]
      refine List.Nodup.append hd (List.nodup_singleton _) ?_
      intro i hi hj
      rw [List.mem_singleton] at hj
      subst hj
      exact absurd (hb _ hi) (Nat.lt_irrefl _)
  | msg f =>
    cases f with
    | invalid => exact ⟨hs, hn, hb, hd⟩
    | response id e =>
      simp only [stepEv]
      obtain ⟨h1, h2, h3⟩ := handleMessage_fields c id e
      refine ⟨?_, ?_, ?_, ?_⟩
      · rw [h2]; exact hs
      · rw [h1, h2]; exact hn
      · rw [h1, h3]
        by_cases hp : id ∈ c.pending
        · rw [if_pos hp]
          exact fun i hi => hb i (List.mem_of_mem_erase hi)
        · rw [if_neg hp]; exact hb
      · rw [h3]
        by_cases hp : id ∈ c.pending
        · rw [if_pos hp]; exact hd.erase id
        · rw [if_neg hp]; exact hd
  | close =>
    exact ⟨hs, hn, by simp [stepEv, closeWithError], by simp [stepEv, closeWithError]⟩

theorem connInv_run (evs : List Ev) : ConnInv (runEvents evs) := by
  have h : ∀ (l : List Ev) (c : Conn), ConnInv c → ConnInv (l.foldl stepEv c) := by
    intro l
    induction l with
    | nil => exact fun c h => h
    | cons e l ih => exact fun c h => ih _ (connInv_step c e h)
  exact h evs initConn connInv_init

/-- The `resolved` and `rejected` logs after a response frame grow by at
most the matching id's entry. -/
theorem handleMessage_logs (c : Conn) (id : Nat) (e : Option String) :
    ((handleMessage c (.response id e)).resolved = c.resolved ∨
      (handleMessage c (.response id e)).resolved = c.resolved ++ [id]) ∧
    ((handleMessage c (.response id e)).rejected = c.rejected ∨
      ∃ m, (handleMessage c (.response id e)).rejected =
        c.rejected ++ [(id, m)]) := by
  by_cases hp : id ∈ c.pending
  · cases e with
    | none => simp [handleMessage, hp]
    | some m =>
      rcases eq_or_ne m "" with hm | hm
      · subst hm; simp [handleMessage, hp]
      · simp [handleMessage, hp, hm]
  · cases e with
    | none => simp [handleMessage, hp]
    | some m => simp [handleMessage, hp]

/-- A success response (no error message) for a pending id appends that id
to the resolved log. -/
theorem handleMessage_resolve_none (c : Conn) (id : Nat)
    (hp : id ∈ c.pending) :
    (handleMessage c (.response id none)).resolved = c.resolved ++ [id] := by
  simp [handleMessage, hp]

/-! ## Theorems for the correlation table (claims C3 and C4) -/

/-- Claim C3: when the connection closes, every still-pending command is
rejected with the connection-closed error (one rejection per pending
command) and the id-to-PendingCommand table becomes empty. -/
theorem closeWithError_rejects_all (c : Conn) :
    (closeWithError c closedMsg).pending = [] ∧
    (closeWithError c closedMsg).rejected.length =
      c.rejected.length + c.pending.length ∧
    ∀ id ∈ c.pending,
      (id, closedMsg) ∈ (closeWithError c closedMsg).rejected := by
  refine ⟨rfl, by simp [closeWithError], ?_⟩
  intro id hid
  simp only [closeWithError]
  exact List.mem_append_right _ (List.mem_map_of_mem _ hid)

/-- Witness for C3: a connection with pending ids 1, 2, 3; on close all of
them are rejected with the connection-closed error and the table empties. -/
theorem closeWithError_rejects_all_witness :
    (closeWithError ⟨4, [1, 2, 3], [1, 2, 3], [], []⟩ closedMsg).pending =
      [] ∧
    (1, closedMsg) ∈
      (closeWithError ⟨4, [1, 2, 3], [1, 2, 3], [], []⟩ closedMsg).rejected ∧
    (3, closedMsg) ∈
      (closeWithError ⟨4, [1, 2, 3], [1, 2, 3], [], []⟩ closedMsg).rejected :=
  ⟨(closeWithError_rejects_all ⟨4, [1, 2, 3], [1, 2, 3], [], []⟩).1,
    (closeWithError_rejects_all ⟨4, [1, 2, 3], [1, 2, 3], [], []⟩).2.2 1
      (by decide),
    (closeWithError_rejects_all ⟨4, [1, 2, 3], [1, 2, 3], [], []⟩).2.2 3
      (by decide)⟩

/-- Claim C4: after any event sequence on one connection, the assigned ids
are exactly `1, 2, ..., n` in order — strictly increasing from 1, hence
unique and never reused — and a response frame affects exactly the pending
command whose id matches: that id is removed from the table (and resolved
when the frame carries no error), while any other id's pending, resolved
and rejected status is untouched. -/
theorem cdp_ids_unique_and_routing (evs : List Ev) (id : Nat)
    (e : Option String) :
    (runEvents evs).sentIds = List.range' 1 (runEvents evs).sentIds.length ∧
    (runEvents evs).sentIds.Pairwise (· < ·) ∧
    (runEvents evs).sentIds.Nodup ∧
    (id ∈ (runEvents evs).pending →
      id ∉ (handleMessage (runEvents evs) (.response id e)).pending) ∧
    (∀ j, j ≠ id →
      (j ∈ (handleMessage (runEvents evs) (.response id e)).pending ↔
        j ∈ (runEvents evs).pending)) ∧
    (∀ j, j ≠ id →
      (j ∈ (handleMessage (runEvents evs) (.response id e)).resolved ↔
        j ∈ (runEvents evs).resolved)) ∧
    (∀ j m, j ≠ id →
      ((j, m) ∈ (handleMessage (runEvents evs) (.response id e)).rejected ↔
        (j, m) ∈ (runEvents evs).rejected)) ∧
    (id ∈ (runEvents evs).pending → e = none →
      id ∈ (handleMessage (runEvents evs) (.response id e)).resolved) := by
  obtain ⟨hs, hn, hb, hd⟩ := connInv_run evs
  obtain ⟨f1, f2, f3⟩ := handleMessage_fields (runEvents evs) id e
  obtain ⟨l1, l2⟩ := handleMessage_logs (runEvents evs) id e
  refine ⟨hs, ?_, ?_, ?_, ?_, ?_, ?_, ?_⟩
  · rw [hs]; exact List.pairwise_lt_range' _ _
  · rw [hs]; exact List.nodup_range' _ _
  · intro hp
    rw [f3, if_pos hp]
    exact hd.not_mem_erase
  · intro j hj
    rw [f3]
    by_cases hp : id ∈ (runEvents evs).pending
    · rw [if_pos hp]; exact List.mem_erase_of_ne hj
    · rw [if_neg hp]
  · intro j hj
    rcases l1 with h | h <;> rw [h]
    simp [List.mem_append, hj]
  · intro j m hj
    rcases l2 with h | ⟨m', h⟩ <;> rw [h]
    simp [List.mem_append, hj]
  · intro hp he
    subst he
    rw [handleMessage_resolve_none _ _ hp]
    exact List.mem_append_right _ (List.mem_singleton_self id)

/-- Witness for C4: two sends assign ids 1 and 2; a success frame for id 1
removes and resolves exactly id 1, leaving id 2 pending. -/
theorem cdp_ids_unique_and_routing_witness :
    (runEvents [Ev.send, Ev.send]).sentIds =
      List.range' 1 (runEvents [Ev.send, Ev.send]).sentIds.length ∧
    1 ∉ (handleMessage (runEvents [Ev.send, Ev.send])
      (Frame.response 1 none)).pending ∧
    (2 ∈ (handleMessage (runEvents [Ev.send, Ev.send])
        (Frame.response 1 none)).pending ↔
      2 ∈ (runEvents [Ev.send, Ev.send]).pending) ∧
    1 ∈ (handleMessage (runEvents [Ev.send, Ev.send])
      (Frame.response 1 none)).resolved :=
  ⟨(cdp_ids_unique_and_routing [Ev.send, Ev.send] 1 none).1,
    (cdp_ids_unique_and_routing [Ev.send, Ev.send] 1 none).2.2.2.1
      (by decide),
    (cdp_ids_unique_and_routing [Ev.send, Ev.send] 1 none).2.2.2.2.1 2
      (by decide),
    (cdp_ids_unique_and_routing [Ev.send, Ev.send] 1 none).2.2.2.2.2.2.2
      (by decide) rfl⟩

/-- Projection form of `handleMessage_fields` for rewriting. -/
theorem handleMessage_pending (c : Conn) (id : Nat) (e : Option String) :
    (handleMessage c (.response id e)).pending =
      if id ∈ c.pending then c.pending.erase id else c.pending :=
  (handleMessage_fields c id e).2.2

/-! ## Theorems for the capture sequence (claims C5, C6, C10) -/

/-- Claim C5: a capture response lacking the base64 `data` payload makes
the invocation fail with the capture-failed error rather than return; all
pending commands are rejected (the table ends empty) and the connection is
closed before the error propagates. -/
theorem capture_missing_data_fails (fullPage : Bool) (ep : CdpEndpoint)
    (h1 : ep.connectOk = true) (h2 : ep.enableReply = .ok ())
    (h3 : ∀ _ : fullPage = true, ∃ m, ep.metricsReply = .ok m)
    (h4 : ep.captureReply = .ok ⟨none⟩) :
    (captureScreenshotPng fullPage ep).outcome = .error .captureFailed ∧
    (captureScreenshotPng fullPage ep).wsClosed = true ∧
    (captureScreenshotPng fullPage ep).conn.pending = [] := by
  obtain ⟨co, er, mr, cr⟩ := ep
  subst h1; subst h2; subst h4
  cases fullPage with
  | false => exact ⟨rfl, rfl, rfl⟩
  | true =>
    obtain ⟨m, hm⟩ := h3 rfl
    subst hm
    exact ⟨rfl, rfl, rfl⟩

/-- Witness for C5 (end-to-end scenario D): enable succeeds, the capture
response carries no `data`; the run fails with the capture-failed error,
the socket is closed and no command is left pending. -/
theorem capture_missing_data_fails_witness :
    (captureScreenshotPng false
        ⟨true, .ok (), .close, .ok ⟨none⟩⟩).outcome =
      .error .captureFailed ∧
    (captureScreenshotPng false ⟨true, .ok (), .close, .ok ⟨none⟩⟩).wsClosed =
      true ∧
    (captureScreenshotPng false
        ⟨true, .ok (), .close, .ok ⟨none⟩⟩).conn.pending = [] :=
  capture_missing_data_fails false ⟨true, .ok (), .close, .ok ⟨none⟩⟩
    rfl rfl (fun h => nomatch h) rfl

/-- Claim C6: with connect and enable succeeding, the layout-metrics query
is issued iff full-page capture was requested; a viewport capture carries
no clip; a full-page capture with a metrics result carries the clip
computed by `computeClip`, which is `(0, 0, w, h, scale 1)` exactly when
both extracted dimensions (CSS-pixel size field, falling back to the
alternate size field, each dimension defaulting to 0) are positive and is
absent otherwise; whenever the capture reply carries a truthy (non-empty)
payload the operation proceeds without error and returns it; and an
empty-string payload, falsy like an absent one, fails with the
capture-failed error instead. -/
theorem capture_clip_policy (fullPage : Bool) (ep : CdpEndpoint)
    (h1 : ep.connectOk = true) (h2 : ep.enableReply = .ok ()) :
    ("Page.getLayoutMetrics" ∈ (captureScreenshotPng fullPage ep).sentMethods
      ↔ fullPage = true) ∧
    (fullPage = false →
      (captureScreenshotPng fullPage ep).captureParams =
        some ⟨"png", true, true, none⟩) ∧
    (∀ m, fullPage = true → ep.metricsReply = .ok m →
      (captureScreenshotPng fullPage ep).captureParams =
        some ⟨"png", true, true, computeClip m⟩) ∧
    (∀ m w h,
      ((m.cssContentSize <|> m.contentSize).bind SizeD.width).getD 0 = w →
      ((m.cssContentSize <|> m.contentSize).bind SizeD.height).getD 0 = h →
      (0 < w ∧ 0 < h → computeClip m = some ⟨0, 0, w, h, 1⟩) ∧
        (¬(0 < w ∧ 0 < h) → computeClip m = none)) ∧
    (∀ s, s ≠ "" → (∀ _ : fullPage = true, ∃ m, ep.metricsReply = .ok m) →
      ep.captureReply = .ok ⟨some s⟩ →
      (captureScreenshotPng fullPage ep).outcome = .ok s) ∧
    (ep.captureReply = .ok ⟨some ""⟩ →
      (∀ _ : fullPage = true, ∃ m, ep.metricsReply = .ok m) →
      (captureScreenshotPng fullPage ep).outcome =
        .error .captureFailed) := by
  obtain ⟨co, er, mr, cr⟩ := ep
  subst h1; subst h2
  refine ⟨?_, ?_, ?_, ?_, ?_, ?_⟩
  · cases fullPage with
    | false =>
      cases cr with
      | ok res =>
        obtain ⟨d⟩ := res
        cases d with
        | none => simp [captureScreenshotPng, doCmd]
        | some b64 =>
          rcases eq_or_ne b64 "" with hb | hb
          · subst hb; simp [captureScreenshotPng, doCmd]
          · simp [captureScreenshotPng, doCmd, hb]
      | err m => simp [captureScreenshotPng, doCmd]
      | close => simp [captureScreenshotPng, doCmd]
    | true =>
      cases mr with
      | ok m =>
        cases cr with
        | ok res =>
          obtain ⟨d⟩ := res
          cases d with
          | none => simp [captureScreenshotPng, doCmd]
          | some b64 =>
            rcases eq_or_ne b64 "" with hb | hb
            · subst hb; simp [captureScreenshotPng, doCmd]
            · simp [captureScreenshotPng, doCmd, hb]
        | err m2 => simp [captureScreenshotPng, doCmd]
        | close => simp [captureScreenshotPng, doCmd]
      | err m2 => simp [captureScreenshotPng, doCmd]
      | close => simp [captureScreenshotPng, doCmd]
  · intro hf
    subst hf
    cases cr with
    | ok res =>
      obtain ⟨d⟩ := res
      cases d with
      | none => rfl
      | some b64 =>
        rcases eq_or_ne b64 "" with hb | hb
        · subst hb; rfl
        · simp [captureScreenshotPng, doCmd, hb]
    | err m => rfl
    | close => rfl
  · intro m hf hm
    subst hf
    subst hm
    cases cr with
    | ok res =>
      obtain ⟨d⟩ := res
      cases d with
      | none => rfl
      | some b64 =>
        rcases eq_or_ne b64 "" with hb | hb
        · subst hb; rfl
        · simp [captureScreenshotPng, doCmd, hb]
    | err m2 => rfl
    | close => rfl
  · intro m w h hw hh
    constructor
    · intro hpos
      simp only [computeClip]
      rw [hw, hh, if_pos hpos]
    · intro hneg
      simp only [computeClip]
      rw [hw, hh, if_neg hneg]
  · intro s hs h3 h4
    subst h4
    cases fullPage with
    | false => simp [captureScreenshotPng, doCmd, hs]
    | true =>
      obtain ⟨m, hm⟩ := h3 rfl
      subst hm
      simp [captureScreenshotPng, doCmd, hs]
  · intro h4 h3
    subst h4
    cases fullPage with
    | false => rfl
    | true =>
      obtain ⟨m, hm⟩ := h3 rfl
      subst hm
      rfl

/-- Witness for C6, combining end-to-end scenarios B and C: a full-page
capture against an endpoint whose metrics answer has width 800 and
height 0 carries no clip (viewport fallback) yet succeeds with the
payload, and the metrics query is issued. -/
theorem capture_clip_policy_witness :
    ("Page.getLayoutMetrics" ∈
        (captureScreenshotPng true
          ⟨true, .ok (), .ok ⟨some ⟨some 800, some 0⟩, none⟩,
            .ok ⟨some "aGVsbG8="⟩⟩).sentMethods ↔ true = true) ∧
    (captureScreenshotPng true
        ⟨true, .ok (), .ok ⟨some ⟨some 800, some 0⟩, none⟩,
          .ok ⟨some "aGVsbG8="⟩⟩).captureParams =
      some ⟨"png", true, true,
        computeClip ⟨some ⟨some 800, some 0⟩, none⟩⟩ ∧
    computeClip ⟨some ⟨some 800, some 0⟩, none⟩ = none ∧
    (captureScreenshotPng true
        ⟨true, .ok (), .ok ⟨some ⟨some 800, some 0⟩, none⟩,
          .ok ⟨some "aGVsbG8="⟩⟩).outcome = .ok "aGVsbG8=" := by
  have h := capture_clip_policy true
    ⟨true, .ok (), .ok ⟨some ⟨some 800, some 0⟩, none⟩,
      .ok ⟨some "aGVsbG8="⟩⟩ rfl rfl
  refine ⟨h.1, h.2.2.1 ⟨some ⟨some 800, some 0⟩, none⟩ rfl rfl, ?_, ?_⟩
  · exact (h.2.2.2.1 ⟨some ⟨some 800, some 0⟩, none⟩ 800 0 rfl rfl).2
      (by norm_num)
  · exact h.2.2.2.2.1 "aGVsbG8=" (by decide)
      (fun _ => ⟨⟨some ⟨some 800, some 0⟩, none⟩, rfl⟩) rfl

/-- Claim C10 (implicit in the code's await-each-step structure): along
every capture invocation, whatever the endpoint replies, the
id-to-PendingCommand table holds at most one entry at every observed
state. -/
theorem capture_pending_at_most_one (fullPage : Bool) (ep : CdpEndpoint) :
    (captureScreenshotPng fullPage ep).pendingSizes.all
      (fun n => decide (n ≤ 1)) = true := by
  obtain ⟨co, er, mr, cr⟩ := ep
  cases co with
  | false => rfl
  | true =>
    cases er with
    | err m =>
      simp [captureScreenshotPng, doCmd, handleMessage_pending, sendCmd,
        initConn, closeWithError]
    | close =>
      simp [captureScreenshotPng, doCmd, handleMessage_pending, sendCmd,
        initConn, closeWithError]
    | ok u =>
      cases u
      cases fullPage with
      | false =>
        cases cr with
        | err m =>
          simp [captureScreenshotPng, doCmd, handleMessage_pending, sendCmd,
            initConn, closeWithError]
        | close =>
          simp [captureScreenshotPng, doCmd, handleMessage_pending, sendCmd,
            initConn, closeWithError]
        | ok res =>
          obtain ⟨d⟩ := res
          cases d with
          | none =>
            simp [captureScreenshotPng, doCmd, handleMessage_pending, sendCmd,
              initConn, closeWithError]
          | some b64 =>
            rcases eq_or_ne b64 "" with hb | hb
            · subst hb
              simp [captureScreenshotPng, doCmd, handleMessage_pending,
                sendCmd, initConn, closeWithError]
            · simp [captureScreenshotPng, doCmd, handleMessage_pending,
                sendCmd, initConn, closeWithError, hb]
      | true =>
        cases mr with
        | err m =>
          simp [captureScreenshotPng, doCmd, handleMessage_pending, sendCmd,
            initConn, closeWithError]
        | close =>
          simp [captureScreenshotPng, doCmd, handleMessage_pending, sendCmd,
            initConn, closeWithError]
        | ok m =>
          cases cr with
          | err m2 =>
            simp [captureScreenshotPng, doCmd, handleMessage_pending, sendCmd,
              initConn, closeWithError]
          | close =>
            simp [captureScreenshotPng, doCmd, handleMessage_pending, sendCmd,
              initConn, closeWithError]
          | ok res =>
            obtain ⟨d⟩ := res
            cases d with
            | none =>
              simp [captureScreenshotPng, doCmd, handleMessage_pending,
                sendCmd, initConn, closeWithError]
            | some b64 =>
              rcases eq_or_ne b64 "" with hb | hb
              · subst hb
                simp [captureScreenshotPng, doCmd, handleMessage_pending,
                  sendCmd, initConn, closeWithError]
              · simp [captureScreenshotPng, doCmd, handleMessage_pending,
                  sendCmd, initConn, closeWithError, hb]

/-! ## Theorems for the color normalizer (claim C9) -/

/-- Counterexample to claim C9 as stated: `" abcdef"` is not a valid
6-hex-digit color (it is 7 characters long and contains a space), so the
claim requires the fixed default color, but the source trims the string
first and returns `"#ABCDEF"`.  The same happens across the whole
ECMAScript trim set, e.g. for a leading form feed (`"\x0Cabcdef"`). -/
theorem normalizeHexColor_claim_counterexample :
    validSixHexB " abcdef".toList = false ∧
    normalizeHexColor (some " abcdef".toList) = "#ABCDEF".toList ∧
    normalizeHexColor (some " abcdef".toList) ≠
      DEFAULT_CLAWD_BROWSER_COLOR.toList ∧
    validSixHexB ('\x0C' :: "abcdef".toList) = false ∧
    normalizeHexColor (some ('\x0C' :: "abcdef".toList)) =
      "#ABCDEF".toList := by
  decide

/-- Claim C9 (amended): the input is first trimmed of surrounding
ECMAScript whitespace (`jsWhitespace`); every string whose trimmed form is
a valid 6-hex-digit color, with or without a leading `#`, normalizes to
the uppercase `#RRGGBB` form of it, and every other string normalizes to
the fixed default color. -/
theorem normalizeHexColor_spec (s : List Char) :
    normalizeHexColor (some s) =
      if validSixHexB (jsTrim s) then '#' :: (hexCore (jsTrim s)).map jsToUpper
      else DEFAULT_CLAWD_BROWSER_COLOR.toList := by
  unfold normalizeHexColor
  simp only [Option.getD]
  cases ht : jsTrim s with
  | nil => simp [validSixHexB, hexCore]
  | cons c rest =>
    by_cases hc : c = '#'
    · subst hc
      simp [validSixHexB, hexCore, matchesHexPattern,
        (by decide : jsToUpper '#' = '#')]
    · simp [validSixHexB, hexCore, matchesHexPattern, hc,
        (by decide : jsToUpper '#' = '#')]

/-! ## Theorems for setDeep (claim C7) -/

/-- Claim C7: for every tree, non-empty key path and value, `setDeep`
(1) binds the value at the end of the path, (2) leaves every key other
than the traversed one bound to its previous value at each level, and
(3) replaces a traversed key whose current value is not a plain object
(arrays, null, primitives, missing) by an empty object and recurses into
it, never failing. -/
theorem setDeep_spec (fields : List (String × JsonV)) (keys : List String)
    (v : JsonV) (hne : keys ≠ []) :
    getDeep (setDeep fields keys v) keys = some v ∧
    (∀ k rest, keys = k :: rest →
      (∀ k', k' ≠ k → getKey (setDeep fields keys v) k' = getKey fields k') ∧
      (rest ≠ [] →
        getKey (setDeep fields keys v) k =
          some (JsonV.obj (setDeep (childFields fields k) rest v)))) := by
  refine ⟨getDeep_setDeep keys fields v hne, ?_⟩
  intro k rest hk
  subst hk
  refine ⟨?_, ?_⟩
  · intro k' hk'
    cases rest with
    | nil => simp [setDeep, getKey_setKey_ne _ _ _ _ hk']
    | cons k2 r2 => simp [setDeep, getKey_setKey_ne _ _ _ _ hk']
  · intro hrest
    cases rest with
    | nil => exact absurd rfl hrest
    | cons k2 r2 => simp [setDeep, getKey_setKey_self]

/-- Witness for C7 at a concrete input: path `["a", "c"]` into an object
where `"a"` currently holds a string (a non-object, hence overwritten by
a fresh object) and `"b"` is untouched. -/
theorem setDeep_spec_witness :
    getDeep (setDeep [("a", JsonV.str "x"), ("b", JsonV.num 3)] ["a", "c"]
      (JsonV.str "y")) ["a", "c"] = some (JsonV.str "y") ∧
    getKey (setDeep [("a", JsonV.str "x"), ("b", JsonV.num 3)] ["a", "c"]
        (JsonV.str "y")) "b" =
      getKey [("a", JsonV.str "x"), ("b", JsonV.num 3)] "b" ∧
    getKey (setDeep [("a", JsonV.str "x"), ("b", JsonV.num 3)] ["a", "c"]
        (JsonV.str "y")) "a" =
      some (JsonV.obj (setDeep
        (childFields [("a", JsonV.str "x"), ("b", JsonV.num 3)] "a")
        ["c"] (JsonV.str "y"))) := by
  have h := setDeep_spec [("a", JsonV.str "x"), ("b", JsonV.num 3)] ["a", "c"]
    (JsonV.str "y") (by simp)
  exact ⟨h.1, (h.2 "a" ["c"] rfl).1 "b" (by decide),
    (h.2 "a" ["c"] rfl).2 (by simp)⟩

/-! ## Theorems for the Executable Locator (claim C8) -/

/-- Claim C8: the locator returns the first existing path from the fixed
candidate list ordered canary, open-source build ("chromium"), stable
release ("chrome"), each checked system-wide before per-user; when only
the stable-release path exists it returns it with the stable kind, and
with no existing candidate it returns `none` rather than failing. -/
theorem findChromeExecutableMac_spec (home : String)
    (fsExists : String → Bool) :
    (findChromeExecutableMac home fsExists =
      if fsExists canarySystem.path then some canarySystem
      else if fsExists (canaryUser home).path then some (canaryUser home)
      else if fsExists chromiumSystem.path then some chromiumSystem
      else if fsExists (chromiumUser home).path then some (chromiumUser home)
      else if fsExists chromeSystem.path then some chromeSystem
      else if fsExists (chromeUser home).path then some (chromeUser home)
      else none) ∧
    (findChromeExecutableMac "/Users/u" (fun p => p == chromeSystem.path) =
        some chromeSystem ∧
      chromeSystem.kind = BrowserKind.chrome) ∧
    findChromeExecutableMac home (fun _ => false) = none := by
  refine ⟨?_, by decide, ?_⟩
  · cases h1 : fsExists canarySystem.path <;>
      cases h2 : fsExists (canaryUser home).path <;>
      cases h3 : fsExists chromiumSystem.path <;>
      cases h4 : fsExists (chromiumUser home).path <;>
      cases h5 : fsExists chromeSystem.path <;>
      cases h6 : fsExists (chromeUser home).path <;>
      simp [findChromeExecutableMac, chromeCandidatesMac, List.find?,
        h1, h2, h3, h4, h5, h6]
  · simp [findChromeExecutableMac, chromeCandidatesMac, List.find?]

/-! ## Theorems for the Profile Brander's error behaviour (claim C2) -/

/-- Claim C2 (code bug): `decorateClawdProfile` is not exception-free.
`safeReadJson` failures and a failing marker write are swallowed, but
`safeWriteJson` has no try/catch, so a raising preference-file write
escapes to the caller.  Evaluated: a raising "Local State" write escapes,
a raising "Preferences" write escapes, while unreadable inputs together
with a raising marker write still return normally. -/
theorem decorateClawdProfile_write_error_escapes :
    decorateClawdProfile ⟨none, none, true, false, false⟩ none =
      .error () ∧
    decorateIsOk
      (decorateClawdProfile ⟨none, none, false, true, false⟩ none) = false ∧
    decorateIsOk
      (decorateClawdProfile ⟨none, none, false, false, true⟩ none) = true :=
  ⟨rfl, rfl, rfl⟩

/-! ## Theorems for Shutdown (claim C1) -/

/-- Claim C1 (code bug): with the process alive and SIGTERM delivered
(`proc.killed` true, `proc.exitCode` still null), the wait loop's first
check `!proc.exitCode && proc.killed` is true, so it breaks immediately
and SIGKILL is sent even though the debug endpoint is already unreachable
at the very first poll (first conjunct).  The graceful return the claim
describes is reachable only when the SIGTERM delivery itself failed
(second conjunct) or the process already exited with a non-zero code
(third conjunct); the already-signalled early return works (fourth). -/
theorem stopClawdChrome_always_forces :
    stopClawdChrome false true (fun _ => none) (fun _ => false) 25 =
      StopOutcome.forced ∧
    stopClawdChrome false false (fun _ => none) (fun _ => false) 25 =
      StopOutcome.graceful 0 ∧
    stopClawdChrome false true (fun _ => some 1) (fun _ => false) 25 =
      StopOutcome.graceful 0 ∧
    stopClawdChrome true true (fun _ => none) (fun _ => false) 25 =
      StopOutcome.alreadyKilled :=
  ⟨rfl, rfl, rfl, rfl⟩

end Openclaw
